import Mathlib

/-
  Verification of the market-data core of the ai-stock-advisor backend.

  The definitions below are shallow embeddings of the Python sources:
  - app/services/market_providers/factory.py   (ProviderFactory)
  - app/services/market_data.py                (MarketDataService.get_real_time_data)
  - app/services/indicators.py                 (TechnicalIndicators.calculate_all)
  - migrations/versions/ea09323a6286_...       (unique constraint on stock_news)

  Numbers are modelled with ℚ (the spec asks for behavioural, not bit-level,
  floating-point fidelity); timestamps are modelled as whole seconds (ℤ).
-/

namespace StockAdvisor

/-! Part 1: ProviderFactory (factory.py) -/

-- Python str.upper(), modelled per character (tickers and source names here
-- are ASCII, where str.upper() agrees with Char.toUpper character-wise).
def pyUpper (s : String) : String := String.mk (s.data.map Char.toUpper)

-- factory.py line 23: re.match(r'^\d{6}(\.(SH|SZ))?$', ticker.upper())
-- Python \d is modelled as ASCII digits (tickers in this system are ASCII).
def isAShare (ticker : String) : Bool :=
  let cs := (pyUpper ticker).data
  decide (6 ≤ cs.length) && (cs.take 6).all Char.isDigit &&
    (cs.drop 6 == [] || cs.drop 6 == ['.', 'S', 'H'] || cs.drop 6 == ['.', 'S', 'Z'])

inductive ProviderKind where
  | yfinance
  | alphaVantage
  | akshare
deriving DecidableEq, Repr

-- A provider instance: `instId` distinguishes separately-constructed objects
-- (Python object identity), `kind` is the concrete class that was constructed.
structure Provider where
  instId : Nat
  kind : ProviderKind
deriving DecidableEq, Repr

-- The class constructed by ProviderFactory._get_instance for a given key
-- (factory.py lines 40-49; the final else branch constructs YFinanceProvider).
def kindOfSource (source : String) : ProviderKind :=
  if source = "YFINANCE" then ProviderKind.yfinance
  else if source = "ALPHA_VANTAGE" then ProviderKind.alphaVantage
  else if source = "AKSHARE" then ProviderKind.akshare
  else ProviderKind.yfinance

-- The class-level `_instances` dict plus a fresh-object counter.
structure FactoryState where
  instances : List (String × Provider)
  nextId : Nat
deriving DecidableEq, Repr

def FactoryState.empty : FactoryState := ⟨[], 0⟩

-- Python dict lookup on `_instances`.
def findInst (source : String) : List (String × Provider) → Option Provider
  | [] => none
  | (k, p) :: rest => if k = source then some p else findInst source rest

-- ProviderFactory._get_instance (factory.py lines 36-50): memoized construction.
def getInstance (st : FactoryState) (source : String) : Provider × FactoryState :=
  match findInst source st.instances with
  | some p => (p, st)
  | none =>
      let p : Provider := ⟨st.nextId, kindOfSource source⟩
      (p, ⟨(source, p) :: st.instances, st.nextId + 1⟩)

-- ProviderFactory.get_provider (factory.py lines 16-33).
def get_provider (ticker preferred_source : String) (st : FactoryState) :
    Provider × FactoryState :=
  if isAShare ticker then getInstance st "AKSHARE"
  else
    let s0 := pyUpper preferred_source
    let source :=
      if s0 = "YFINANCE" ∨ s0 = "ALPHA_VANTAGE" ∨ s0 = "AKSHARE" then s0 else "YFINANCE"
    getInstance st source

-- Invariant of the singleton dict: each key holds an instance of the class
-- that `_get_instance` constructs for that key.
def FactoryState.wf (st : FactoryState) : Prop :=
  ∀ e ∈ st.instances, (e.2).kind = kindOfSource e.1

theorem factoryState_empty_wf : FactoryState.empty.wf := by
  intro e he
  simp [FactoryState.empty] at he

theorem findInst_mem {source : String} {l : List (String × Provider)} {p : Provider}
    (h : findInst source l = some p) : (source, p) ∈ l := by
  induction l with
  | nil => simp [findInst] at h
  | cons hd tl ih =>
      obtain ⟨k, q⟩ := hd
      by_cases hk : k = source
      · subst hk
        simp [findInst] at h
        subst h
        exact List.mem_cons_self _ _
      · simp [findInst, hk] at h
        exact List.mem_cons_of_mem _ (ih h)

theorem getInstance_kind (st : FactoryState) (source : String) (hwf : st.wf) :
    ((getInstance st source).1).kind = kindOfSource source := by
  unfold getInstance
  cases hl : findInst source st.instances with
  | none => simp
  | some p =>
      simpa using hwf (source, p) (findInst_mem hl)

theorem getInstance_memo (st : FactoryState) (source : String) :
    getInstance (getInstance st source).2 source =
      ((getInstance st source).1, (getInstance st source).2) := by
  unfold getInstance
  cases hl : findInst source st.instances with
  | none => simp [findInst]
  | some p => simp [hl]

/-- C7: a ticker matching the 6-digit A-share pattern (optionally suffixed
.SH/.SZ, case-insensitive) is routed to the AkShare provider for every value of
preferred_source, while a non-matching ticker is routed to the provider named
by preferred_source (whenever that name, uppercased, denotes one of the three
providers). -/
theorem c7_provider_routing (st : FactoryState) (ticker pref : String) (hwf : st.wf) :
    (isAShare ticker = true →
      ((get_provider ticker pref st).1).kind = ProviderKind.akshare) ∧
    (isAShare ticker = false →
      (pyUpper pref = "YFINANCE" ∨ pyUpper pref = "ALPHA_VANTAGE" ∨
        pyUpper pref = "AKSHARE") →
      ((get_provider ticker pref st).1).kind = kindOfSource (pyUpper pref)) := by
  constructor
  · intro hsh
    unfold get_provider
    rw [hsh]
    simp [getInstance_kind st "AKSHARE" hwf, kindOfSource]
  · intro hsh hvalid
    unfold get_provider
    rw [hsh]
    simp only [Bool.false_eq_true, if_false]
    rw [if_pos hvalid]
    exact getInstance_kind st (pyUpper pref) hwf

/-- Witness for C7: the concrete scenario of the spec, from a fresh factory:
"600519" routes to AkShare even though the preference says YFINANCE, and
"AAPL" routes to the provider named by the preference. -/
theorem c7_provider_routing_witness :
    ((get_provider "600519" "YFINANCE" FactoryState.empty).1).kind =
      ProviderKind.akshare ∧
    ((get_provider "AAPL" "ALPHA_VANTAGE" FactoryState.empty).1).kind =
      kindOfSource "ALPHA_VANTAGE" := by
  constructor
  · exact (c7_provider_routing FactoryState.empty "600519" "YFINANCE"
      factoryState_empty_wf).1 (by decide)
  · exact (c7_provider_routing FactoryState.empty "AAPL" "ALPHA_VANTAGE"
      factoryState_empty_wf).2 (by decide) (Or.inr (Or.inl (by decide)))

/-- C10: for a non-A-share ticker and a preferred_source whose uppercasing is
none of YFINANCE / ALPHA_VANTAGE / AKSHARE, get_provider silently falls back to
the YFinance provider; and an immediately repeated get_provider call for the
same ticker and source returns the identical memoized instance and leaves the
factory state unchanged. -/
theorem c10_factory_fallback_and_memo (st : FactoryState) (ticker pref : String)
    (hwf : st.wf) :
    (isAShare ticker = false →
      pyUpper pref ≠ "YFINANCE" → pyUpper pref ≠ "ALPHA_VANTAGE" →
      pyUpper pref ≠ "AKSHARE" →
      ((get_provider ticker pref st).1).kind = ProviderKind.yfinance) ∧
    (get_provider ticker pref (get_provider ticker pref st).2 =
      ((get_provider ticker pref st).1, (get_provider ticker pref st).2)) := by
  constructor
  · intro hsh h1 h2 h3
    unfold get_provider
    rw [hsh]
    simp only [Bool.false_eq_true, if_false]
    rw [if_neg (by tauto)]
    simp [getInstance_kind st "YFINANCE" hwf, kindOfSource]
  · unfold get_provider
    cases hsh : isAShare ticker with
    | true => simpa using getInstance_memo st "AKSHARE"
    | false => simpa using getInstance_memo st _

/-- Witness for C10: from a fresh factory, an unknown source name "TAVILY"
for ticker "AAPL" yields the YFinance provider, and the repeated call is
memoized. -/
theorem c10_factory_fallback_and_memo_witness :
    ((get_provider "AAPL" "TAVILY" FactoryState.empty).1).kind =
      ProviderKind.yfinance ∧
    (get_provider "AAPL" "TAVILY" (get_provider "AAPL" "TAVILY" FactoryState.empty).2 =
      ((get_provider "AAPL" "TAVILY" FactoryState.empty).1,
        (get_provider "AAPL" "TAVILY" FactoryState.empty).2)) := by
  constructor
  · exact (c10_factory_fallback_and_memo FactoryState.empty "AAPL" "TAVILY"
      factoryState_empty_wf).1 (by decide) (by decide) (by decide) (by decide)
  · exact (c10_factory_fallback_and_memo FactoryState.empty "AAPL" "TAVILY"
      factoryState_empty_wf).2

/-! Part 2: stock_news upsert (market_data.py lines 150-166, migration ea09323a6286) -/

-- A stock_news row. `id` is the primary key, and migration ea09323a6286 adds
-- the unique constraint uq_stock_news_ticker_link on (ticker, link).
-- The claim concerns rows whose id and link are actually supplied, so those
-- columns are modelled as non-null strings.
structure NewsRow where
  id : String
  ticker : String
  title : String
  publisher : String
  link : String
  publish_time : Int
deriving DecidableEq, Repr

-- A candidate INSERT conflicts with an existing row when it violates the
-- primary key (id) or the (ticker, link) unique constraint.
def newsConflict (existing row : NewsRow) : Bool :=
  existing.id == row.id || (existing.ticker == row.ticker && existing.link == row.link)

-- insert(StockNews).values(...).on_conflict_do_nothing(): SQLite skips the
-- whole insert when any uniqueness constraint is violated, and never touches
-- the conflicting stored row.
def upsertNews (table : List NewsRow) (row : NewsRow) : List NewsRow :=
  if table.any (fun r => newsConflict r row) then table else table ++ [row]

def countTickerLink (table : List NewsRow) (tk lk : String) : Nat :=
  (table.filter (fun r => r.ticker == tk && r.link == lk)).length

/-- C6: inserting a news item with the same (ticker, link) pair twice into a
table that held no conflicting row leaves exactly one stored row for that
pair, the second insert is a no-op, and an insert never modifies the rows that
were already stored. -/
theorem c6_news_upsert_idempotent (t : List NewsRow) (r r2 : NewsRow)
    (hfresh : ∀ s ∈ t, newsConflict s r = false)
    (ht : r2.ticker = r.ticker) (hl : r2.link = r.link) :
    countTickerLink (upsertNews (upsertNews t r) r2) r.ticker r.link = 1 ∧
    upsertNews (upsertNews t r) r2 = upsertNews t r ∧
    (upsertNews t r).take t.length = t := by
  have hany : t.any (fun s => newsConflict s r) = false := by
    rw [List.any_eq_false]
    intro s hs
    simp [hfresh s hs]
  have h1 : upsertNews t r = t ++ [r] := by
    simp [upsertNews, hany]
  have hconf2 : newsConflict r r2 = true := by
    simp [newsConflict, ht, hl]
  have h2 : upsertNews (t ++ [r]) r2 = t ++ [r] := by
    have : (t ++ [r]).any (fun s => newsConflict s r2) = true := by
      rw [List.any_eq_true]
      exact ⟨r, by simp, hconf2⟩
    simp [upsertNews, this]
  have hcount : countTickerLink (t ++ [r]) r.ticker r.link = 1 := by
    unfold countTickerLink
    rw [List.filter_append]
    have htz : t.filter (fun s => s.ticker == r.ticker && s.link == r.link) = [] := by
      rw [List.filter_eq_nil_iff]
      intro s hs
      have := hfresh s hs
      simp [newsConflict] at this
      intro hcontra
      rw [Bool.and_eq_true, beq_iff_eq, beq_iff_eq] at hcontra
      exact absurd hcontra.2 (this.2 hcontra.1)
    simp [htz]
  refine ⟨?_, ?_, ?_⟩
  · rw [h1, h2]
    exact hcount
  · rw [h1, h2]
  · rw [h1]
    exact List.take_left t [r]

/-- Witness for C6: a concrete double insert of the same (ticker, link) pair
(with differing ids and titles) into an empty table. -/
theorem c6_news_upsert_idempotent_witness :
    countTickerLink
      (upsertNews
        (upsertNews [] ⟨"u1", "AAPL", "t1", "p1", "http://x", 10⟩)
        ⟨"u2", "AAPL", "t2", "p2", "http://x", 11⟩) "AAPL" "http://x" = 1 ∧
    upsertNews
        (upsertNews [] ⟨"u1", "AAPL", "t1", "p1", "http://x", 10⟩)
        ⟨"u2", "AAPL", "t2", "p2", "http://x", 11⟩ =
      upsertNews [] ⟨"u1", "AAPL", "t1", "p1", "http://x", 10⟩ := by
  have h := c6_news_upsert_idempotent []
    ⟨"u1", "AAPL", "t1", "p1", "http://x", 10⟩
    ⟨"u2", "AAPL", "t2", "p2", "http://x", 11⟩
    (by intro s hs; simp at hs) rfl rfl
  exact ⟨h.1, h.2.1⟩

/-! Part 3: MarketDataService.get_real_time_data (market_data.py) -/

-- The candidate data dict produced by a provider fetch.  An outer `none`
-- means the dict key is absent; for the keys the yfinance path copies from
-- info.get(...) without a default (ma50, ma200) an inner Option records that
-- the key can be present with value None.
structure FetchData where
  price : Option ℚ
  currentPrice : Option ℚ
  regularMarketPrice : Option ℚ
  changePercent : Option ℚ
  regularMarketChangePercent : Option ℚ
  rsi : Option ℚ
  ma20 : Option ℚ
  ma50 : Option (Option ℚ)
  ma200 : Option (Option ℚ)
  macd : Option ℚ
  macd_signal : Option ℚ
  macd_hist : Option ℚ
  bb_upper : Option ℚ
  bb_middle : Option ℚ
  bb_lower : Option ℚ
  atr : Option ℚ
  kdj_k : Option ℚ
  kdj_d : Option ℚ
  kdj_j : Option ℚ
  volume_ma20 : Option ℚ
  volume_ratio : Option ℚ
deriving DecidableEq, Repr

-- The persisted MarketDataCache row (models/stock.py): current_price and
-- change_percent are assigned on every merge, the indicator columns are
-- nullable.
structure CacheRow where
  ticker : String
  current_price : ℚ
  change_percent : ℚ
  rsi_14 : Option ℚ
  ma_20 : Option ℚ
  ma_50 : Option ℚ
  ma_200 : Option ℚ
  macd_val : Option ℚ
  macd_signal : Option ℚ
  macd_hist : Option ℚ
  bb_upper : Option ℚ
  bb_middle : Option ℚ
  bb_lower : Option ℚ
  atr_14 : Option ℚ
  k_line : Option ℚ
  d_line : Option ℚ
  j_line : Option ℚ
  volume_ma_20 : Option ℚ
  volume_ratio : Option ℚ
  market_status : String
  last_updated : Int
deriving DecidableEq, Repr

-- A fresh MarketDataCache(ticker=ticker) row before the merge assigns it
-- (column defaults from models/stock.py; price fields are written by the
-- merge below before the row is ever read back).
def newCacheRow (ticker : String) (now : Int) : CacheRow :=
  ⟨ticker, 0, 0, none, none, none, none, none, none, none, none, none, none,
    none, none, none, none, none, none, "CLOSED", now⟩

-- dict.get(key, cache.field): overwrite only when the key is present.
def mergeOpt (key : Option ℚ) (old : Option ℚ) : Option ℚ :=
  match key with
  | some v => some v
  | none => old

-- data.get('currentPrice', data.get('price', data.get('regularMarketPrice', 0)))
def dictPrice (d : FetchData) : ℚ :=
  match d.currentPrice with
  | some v => v
  | none =>
      match d.price with
      | some v => v
      | none =>
          match d.regularMarketPrice with
          | some v => v
          | none => 0

-- data.get('changePercent', data.get('regularMarketChangePercent', 0))
def dictChange (d : FetchData) : ℚ :=
  match d.changePercent with
  | some v => v
  | none =>
      match d.regularMarketChangePercent with
      | some v => v
      | none => 0

-- market_data.py lines 120-148: update of the cache row from the fetched dict.
def mergeCache (cache : CacheRow) (data : FetchData) (now : Int) : CacheRow :=
  { cache with
    current_price := dictPrice data
    change_percent := dictChange data
    rsi_14 := mergeOpt data.rsi cache.rsi_14
    ma_20 := mergeOpt data.ma20 cache.ma_20
    ma_50 := (match data.ma50 with | some v => v | none => cache.ma_50)
    ma_200 := (match data.ma200 with | some v => v | none => cache.ma_200)
    macd_val := mergeOpt data.macd cache.macd_val
    macd_signal := mergeOpt data.macd_signal cache.macd_signal
    macd_hist := mergeOpt data.macd_hist cache.macd_hist
    bb_upper := mergeOpt data.bb_upper cache.bb_upper
    bb_middle := mergeOpt data.bb_middle cache.bb_middle
    bb_lower := mergeOpt data.bb_lower cache.bb_lower
    atr_14 := mergeOpt data.atr cache.atr_14
    k_line := mergeOpt data.kdj_k cache.k_line
    d_line := mergeOpt data.kdj_d cache.d_line
    j_line := mergeOpt data.kdj_j cache.j_line
    volume_ma_20 := mergeOpt data.volume_ma20 cache.volume_ma_20
    volume_ratio := mergeOpt data.volume_ratio cache.volume_ratio
    market_status := "OPEN"
    last_updated := now }

-- The mock dict returned when no provider data and no cache exist
-- (market_data.py lines 76-85).
structure MockData where
  shortName : String
  currentPrice : ℚ
  regularMarketPrice : ℚ
  regularMarketChangePercent : ℚ
  regularMarketOpen : ℚ
  regularMarketDayHigh : ℚ
  regularMarketDayLow : ℚ
  volume : ℚ
deriving DecidableEq, Repr

-- get_mock_base (market_data.py lines 63-65).
def mockBase (t : String) : ℚ :=
  if t = "AAPL" then 230
  else if t = "NVDA" then 130
  else if t = "MSFT" then 410
  else if t = "GOOGL" then 190
  else if t = "TSLA" then 250
  else 100

-- The environment of one call: what the two provider fetches would yield and
-- the values drawn from random.uniform.
structure FetchEnv where
  hasAVKey : Bool
  avResult : Option FetchData
  yfResult : Option FetchData
  simFluct : ℚ
  mockPriceJitter : ℚ
  mockChange : ℚ
deriving DecidableEq, Repr

-- try_alpha_vantage (market_data.py lines 29-37): requires an API key and a
-- dict that contains a "price" key; anything else (including an exception
-- from _fetch_alpha_vantage) yields None.
def try_alpha_vantage (env : FetchEnv) : Option FetchData :=
  if env.hasAVKey then
    match env.avResult with
    | some d => if d.price.isSome then some d else none
    | none => none
  else none

-- try_yfinance (market_data.py lines 39-47): the fetch result, or None on
-- exception or on the 15-second asyncio.wait_for timeout.
def try_yfinance (env : FetchEnv) : Option FetchData :=
  env.yfResult

-- market_data.py lines 49-56: preference-ordered fetch with fallback.
def fetchFromProviders (preferred_source : String) (env : FetchEnv) : Option FetchData :=
  if preferred_source = "ALPHA_VANTAGE" then
    match try_alpha_vantage env with
    | some d => some d
    | none => try_yfinance env
  else
    match try_yfinance env with
    | some d => some d
    | none => try_alpha_vantage env

-- market_data.py lines 76-85: the simulated dict for an uncached ticker.
def mkMock (ticker : String) (env : FetchEnv) : MockData :=
  { shortName := ticker ++ " (SIMULATED)"
    currentPrice := mockBase ticker * (1 + env.mockPriceJitter)
    regularMarketPrice := mockBase ticker
    regularMarketChangePercent := env.mockChange
    regularMarketOpen := mockBase ticker * (99 / 100)
    regularMarketDayHigh := mockBase ticker * (102 / 100)
    regularMarketDayLow := mockBase ticker * (98 / 100)
    volume := 5000000 }

-- What a call returns: a cache row, or the raw mock dict.
inductive RTResult where
  | row (c : CacheRow)
  | mock (m : MockData)
deriving DecidableEq, Repr

-- The returned value together with how many times the provider-fetch step
-- (market_data.py lines 25-56) ran during the call.
structure RTOutcome where
  result : RTResult
  fetchCycles : Nat
deriving DecidableEq, Repr

-- Continuation of get_real_time_data once the cache was found absent or
-- stale (market_data.py lines 25-170, news persistence modelled separately
-- by upsertNews).
def afterCacheMiss (ticker : String) (cache : Option CacheRow) (now : Int)
    (preferred_source : String) (env : FetchEnv) : RTOutcome :=
  match fetchFromProviders preferred_source env with
  | some d =>
      let base := match cache with
        | some c => c
        | none => newCacheRow ticker now
      ⟨RTResult.row (mergeCache base d now), 1⟩
  | none =>
      match cache with
      | some c =>
          ⟨RTResult.row
            { c with current_price := c.current_price * (1 + env.simFluct)
                     last_updated := now }, 1⟩
      | none => ⟨RTResult.mock (mkMock ticker env), 1⟩

-- MarketDataService.get_real_time_data (market_data.py lines 14-170).
-- The TTL gate is line 22: if cache and (now - cache.last_updated) < 60s.
def get_real_time_data (ticker : String) (cache : Option CacheRow) (now : Int)
    (preferred_source : String) (env : FetchEnv) : RTOutcome :=
  match cache with
  | some c =>
      if now - c.last_updated < 60 then ⟨RTResult.row c, 0⟩
      else afterCacheMiss ticker (some c) now preferred_source env
  | none => afterCacheMiss ticker none now preferred_source env

theorem afterCacheMiss_fetchCycles (ticker : String) (cache : Option CacheRow)
    (now : Int) (pref : String) (env : FetchEnv) :
    (afterCacheMiss ticker cache now pref env).fetchCycles = 1 := by
  unfold afterCacheMiss
  cases fetchFromProviders pref env with
  | some d => rfl
  | none => cases cache with
    | some c => rfl
    | none => rfl

/-- C1: with a persisted snapshot younger than 60 seconds, the call (without
force refresh, which is the only mode the service implements) returns the
cached row unchanged and runs no provider fetch; with a snapshot older than 60
seconds it runs the provider-fetch step exactly once. -/
theorem c1_cache_ttl (ticker : String) (c : CacheRow) (now : Int) (pref : String)
    (env : FetchEnv) :
    (now - c.last_updated < 60 →
      get_real_time_data ticker (some c) now pref env = ⟨RTResult.row c, 0⟩) ∧
    (60 < now - c.last_updated →
      (get_real_time_data ticker (some c) now pref env).fetchCycles = 1) := by
  constructor
  · intro h
    simp [get_real_time_data, h]
  · intro h
    have hcond : ¬ (now - c.last_updated < 60) := by omega
    simp [get_real_time_data, hcond]
    exact afterCacheMiss_fetchCycles ticker (some c) now pref env

-- A sample persisted row used by the concrete witnesses.
def sampleCache : CacheRow :=
  ⟨"AAPL", 100, 0, none, none, none, none, none, none, none, none, none, none,
    none, none, none, none, none, none, "OPEN", 0⟩

-- A sample environment in which both providers fail.
def sampleEnvFail : FetchEnv :=
  ⟨true, none, none, 0, 0, 0⟩

/-- Witness for C1: the spec scenario — a 45-second-old snapshot triggers zero
fetches and is returned unchanged, a 65-second-old one triggers exactly one. -/
theorem c1_cache_ttl_witness :
    ((45 : Int) - sampleCache.last_updated < 60 ∧
      get_real_time_data "AAPL" (some sampleCache) 45 "ALPHA_VANTAGE" sampleEnvFail =
        ⟨RTResult.row sampleCache, 0⟩) ∧
    (60 < (65 : Int) - sampleCache.last_updated ∧
      (get_real_time_data "AAPL" (some sampleCache) 65 "ALPHA_VANTAGE" sampleEnvFail).fetchCycles = 1) := by
  refine ⟨⟨by decide, ?_⟩, ⟨by decide, ?_⟩⟩
  · exact (c1_cache_ttl "AAPL" sampleCache 45 "ALPHA_VANTAGE" sampleEnvFail).1 (by decide)
  · exact (c1_cache_ttl "AAPL" sampleCache 65 "ALPHA_VANTAGE" sampleEnvFail).2 (by decide)

theorem mockBase_ge_100 (t : String) : 100 ≤ mockBase t := by
  unfold mockBase
  split
  · norm_num
  · split
    · norm_num
    · split
      · norm_num
      · split
        · norm_num
        · split <;> norm_num

/-- C2: if the preferred provider yields no data and the alternate yields
data, the fetch returns the alternate result (for both preference orders);
and if both yield nothing and no cached snapshot exists, the call returns —
rather than raises — a mock snapshot whose name carries the SIMULATED flag
and whose current price is present and positive (the jitter is drawn from
[-0.01, 0.01]). -/
theorem c2_provider_fallback (ticker : String) (now : Int) (pref : String)
    (env : FetchEnv) (d : FetchData) :
    (pref = "ALPHA_VANTAGE" → try_alpha_vantage env = none →
      try_yfinance env = some d → fetchFromProviders pref env = some d) ∧
    (pref ≠ "ALPHA_VANTAGE" → try_yfinance env = none →
      try_alpha_vantage env = some d → fetchFromProviders pref env = some d) ∧
    (fetchFromProviders pref env = none → -1 / 100 ≤ env.mockPriceJitter →
      get_real_time_data ticker none now pref env =
        ⟨RTResult.mock (mkMock ticker env), 1⟩ ∧
      (mkMock ticker env).shortName = ticker ++ " (SIMULATED)" ∧
      0 < (mkMock ticker env).currentPrice) := by
  refine ⟨?_, ?_, ?_⟩
  · intro hp hav hyf
    simp [fetchFromProviders, hp, hav, hyf]
  · intro hp hyf hav
    simp [fetchFromProviders, hp, hyf, hav]
  · intro hfail hjit
    refine ⟨?_, rfl, ?_⟩
    · simp [get_real_time_data, afterCacheMiss, hfail]
    · have hb := mockBase_ge_100 ticker
      have hpos : (0 : ℚ) < 1 + env.mockPriceJitter := by linarith
      have : (0 : ℚ) < mockBase ticker := by linarith
      simpa [mkMock] using mul_pos this hpos

-- A provider dict carrying only a price, for the witnesses.
def priceOnlyData : FetchData :=
  ⟨some 123, none, none, some 1, none, none, none, none, none, none, none,
    none, none, none, none, none, none, none, none, none, none⟩

-- An environment where Alpha Vantage fails and yfinance succeeds.
def sampleEnvYfOnly : FetchEnv :=
  ⟨true, none, some priceOnlyData, 0, 1 / 200, 0⟩

/-- Witness for C2: with Alpha Vantage preferred but failing, the yfinance
result is returned; and with both providers failing and no cache, the call
returns the simulated snapshot with positive price. -/
theorem c2_provider_fallback_witness :
    fetchFromProviders "ALPHA_VANTAGE" sampleEnvYfOnly = some priceOnlyData ∧
    (get_real_time_data "TEST" none 0 "ALPHA_VANTAGE" sampleEnvFail =
        ⟨RTResult.mock (mkMock "TEST" sampleEnvFail), 1⟩ ∧
      (mkMock "TEST" sampleEnvFail).shortName = "TEST" ++ " (SIMULATED)" ∧
      0 < (mkMock "TEST" sampleEnvFail).currentPrice) := by
  constructor
  · exact (c2_provider_fallback "TEST" 0 "ALPHA_VANTAGE" sampleEnvYfOnly
      priceOnlyData).1 rfl (by decide) rfl
  · exact (c2_provider_fallback "TEST" 0 "ALPHA_VANTAGE" sampleEnvFail
      priceOnlyData).2.2 (by decide) (by norm_num [sampleEnvFail])

-- A candidate dict supplying an RSI value but no price keys at all, as the
-- yfinance fetch produces when info and history fail but news succeeds (a
-- news-only dict), or here with only an indicator key.
def noPriceData : FetchData :=
  ⟨none, none, none, none, none, some 55, none, none, none, none, none, none,
    none, none, none, none, none, none, none, none, none⟩

/-- C3 counterexample: merging a candidate that supplied no price value
overwrites the previously known current_price 100 with the fallback default
0, so a field the candidate did not supply does not keep its previous value. -/
theorem c3_counterexample :
    noPriceData.currentPrice = none ∧ noPriceData.price = none ∧
    noPriceData.regularMarketPrice = none ∧
    sampleCache.current_price = 100 ∧
    (mergeCache sampleCache noPriceData 100).current_price = 0 := by
  refine ⟨rfl, rfl, rfl, rfl, rfl⟩

/-- C3 (amended): the merge is monotonic for each nullable indicator column —
such a field is overwritten exactly when the candidate dict carries its key,
and keeps its previous value otherwise (so two fetches populating disjoint
fields leave both populated) — while current_price and change_percent are
rewritten on every merge, falling back to 0 when the candidate supplied no
value, and market_status and last_updated are always refreshed. -/
theorem c3_merge_monotonic (cache : CacheRow) (d d1 d2 : FetchData) (now tm : Int) :
    ((d.rsi = none → (mergeCache cache d now).rsi_14 = cache.rsi_14) ∧
      (∀ v, d.rsi = some v → (mergeCache cache d now).rsi_14 = some v)) ∧
    ((d.ma20 = none → (mergeCache cache d now).ma_20 = cache.ma_20) ∧
      (∀ v, d.ma20 = some v → (mergeCache cache d now).ma_20 = some v)) ∧
    ((d.ma50 = none → (mergeCache cache d now).ma_50 = cache.ma_50) ∧
      (∀ v, d.ma50 = some v → (mergeCache cache d now).ma_50 = v)) ∧
    ((d.ma200 = none → (mergeCache cache d now).ma_200 = cache.ma_200) ∧
      (∀ v, d.ma200 = some v → (mergeCache cache d now).ma_200 = v)) ∧
    ((d.macd = none → (mergeCache cache d now).macd_val = cache.macd_val) ∧
      (∀ v, d.macd = some v → (mergeCache cache d now).macd_val = some v)) ∧
    ((d.macd_signal = none → (mergeCache cache d now).macd_signal = cache.macd_signal) ∧
      (∀ v, d.macd_signal = some v → (mergeCache cache d now).macd_signal = some v)) ∧
    ((d.macd_hist = none → (mergeCache cache d now).macd_hist = cache.macd_hist) ∧
      (∀ v, d.macd_hist = some v → (mergeCache cache d now).macd_hist = some v)) ∧
    ((d.bb_upper = none → (mergeCache cache d now).bb_upper = cache.bb_upper) ∧
      (∀ v, d.bb_upper = some v → (mergeCache cache d now).bb_upper = some v)) ∧
    ((d.bb_middle = none → (mergeCache cache d now).bb_middle = cache.bb_middle) ∧
      (∀ v, d.bb_middle = some v → (mergeCache cache d now).bb_middle = some v)) ∧
    ((d.bb_lower = none → (mergeCache cache d now).bb_lower = cache.bb_lower) ∧
      (∀ v, d.bb_lower = some v → (mergeCache cache d now).bb_lower = some v)) ∧
    ((d.atr = none → (mergeCache cache d now).atr_14 = cache.atr_14) ∧
      (∀ v, d.atr = some v → (mergeCache cache d now).atr_14 = some v)) ∧
    ((d.kdj_k = none → (mergeCache cache d now).k_line = cache.k_line) ∧
      (∀ v, d.kdj_k = some v → (mergeCache cache d now).k_line = some v)) ∧
    ((d.kdj_d = none → (mergeCache cache d now).d_line = cache.d_line) ∧
      (∀ v, d.kdj_d = some v → (mergeCache cache d now).d_line = some v)) ∧
    ((d.kdj_j = none → (mergeCache cache d now).j_line = cache.j_line) ∧
      (∀ v, d.kdj_j = some v → (mergeCache cache d now).j_line = some v)) ∧
    ((d.volume_ma20 = none → (mergeCache cache d now).volume_ma_20 = cache.volume_ma_20) ∧
      (∀ v, d.volume_ma20 = some v → (mergeCache cache d now).volume_ma_20 = some v)) ∧
    ((d.volume_ratio = none → (mergeCache cache d now).volume_ratio = cache.volume_ratio) ∧
      (∀ v, d.volume_ratio = some v → (mergeCache cache d now).volume_ratio = some v)) ∧
    (d.currentPrice = none → d.price = none → d.regularMarketPrice = none →
      (mergeCache cache d now).current_price = 0) ∧
    (d.changePercent = none → d.regularMarketChangePercent = none →
      (mergeCache cache d now).change_percent = 0) ∧
    ((mergeCache cache d now).market_status = "OPEN" ∧
      (mergeCache cache d now).last_updated = now) ∧
    (∀ v1 v2, d1.rsi = some v1 → d1.atr = none → d2.atr = some v2 → d2.rsi = none →
      (mergeCache (mergeCache cache d1 now) d2 tm).rsi_14 = some v1 ∧
      (mergeCache (mergeCache cache d1 now) d2 tm).atr_14 = some v2) := by
  repeat any_goals constructor
  all_goals intros
  all_goals simp_all [mergeCache, mergeOpt, dictPrice, dictChange]

/-- Witness for C3 (amended): fetch #1 populates RSI but not ATR, fetch #2
populates ATR but not RSI; after both merges both fields are populated. -/
theorem c3_merge_monotonic_witness :
    (mergeCache (mergeCache sampleCache noPriceData 10)
        (FetchData.mk none none none none none none none none none none none
          none none none none (some 7) none none none none none) 20).rsi_14 = some 55 ∧
    (mergeCache (mergeCache sampleCache noPriceData 10)
        (FetchData.mk none none none none none none none none none none none
          none none none none (some 7) none none none none none) 20).atr_14 = some 7 := by
  obtain ⟨-, -, -, -, -, -, -, -, -, -, -, -, -, -, -, -, -, -, -, hAB⟩ :=
    c3_merge_monotonic sampleCache noPriceData noPriceData
      (FetchData.mk none none none none none none none none none none none
        none none none none (some 7) none none none none none) 10 20
  exact hAB 55 7 rfl rfl rfl rfl

/-! Part 4: the force_refresh keyword (C8) -/

-- The parameter names of MarketDataService.get_real_time_data
-- (market_data.py line 15).
def get_real_time_data_param_names : List String := ["ticker", "db", "preferred_source"]

-- The keyword arguments the refresh endpoint passes to it
-- (api/v1/endpoints/portfolio.py lines 361-366).
def refresh_endpoint_kwargs : List String := ["preferred_source", "force_refresh"]

-- A Python call binds successfully only if every keyword argument names a
-- declared parameter; otherwise it raises TypeError before the body runs.
def callKeywordsAccepted (params kwargs : List String) : Bool :=
  kwargs.all (fun k => params.contains k)

/-- C8: the claim is right about the intent but the code cannot run it — the
service entry point does not declare a force_refresh parameter, so the
refresh endpoint call that passes force_refresh=True raises TypeError
(modelled: the keyword set is not accepted), and the TTL gate the service
actually runs is unconditional — a fresh cache row short-circuits every call. -/
theorem c8_force_refresh_missing :
    callKeywordsAccepted get_real_time_data_param_names refresh_endpoint_kwargs = false ∧
    (∀ ticker c now pref env, now - c.last_updated < 60 →
      get_real_time_data ticker (some c) now pref env = ⟨RTResult.row c, 0⟩) := by
  constructor
  · decide
  · intro ticker c now pref env h
    simp [get_real_time_data, h]

/-- Witness for C8: the keyword rejection is concrete, and a 45-second-old
cache row short-circuits the call with no way to force a refresh. -/
theorem c8_force_refresh_missing_witness :
    callKeywordsAccepted get_real_time_data_param_names refresh_endpoint_kwargs = false ∧
    get_real_time_data "AAPL" (some sampleCache) 45 "ALPHA_VANTAGE" sampleEnvFail =
      ⟨RTResult.row sampleCache, 0⟩ := by
  exact ⟨c8_force_refresh_missing.1,
    c8_force_refresh_missing.2 "AAPL" sampleCache 45 "ALPHA_VANTAGE" sampleEnvFail (by decide)⟩

/-! Part 5: TechnicalIndicators.calculate_all (indicators.py lines 46-240).
Rationals model the float computations behaviourally; the sample standard
deviation of the Bollinger computation involves a square root, which is
passed in as an explicit function parameter `sq` (the float math.sqrt); no
claim below depends on its values.  Pandas division-by-zero produces inf/NaN
where ℚ division produces 0 — no claim below reads a value computed through
such a division. -/

structure Bar where
  high : ℚ
  low : ℚ
  close : ℚ
  volume : ℚ
deriving DecidableEq, Repr

def lastD (xs : List ℚ) (d : ℚ) : ℚ :=
  match xs with
  | [] => d
  | [x] => x
  | _ :: x :: rest => lastD (x :: rest) d

def secondLastD (xs : List ℚ) (d : ℚ) : ℚ :=
  match xs with
  | [] => d
  | [_] => d
  | [x, _] => x
  | _ :: x :: y :: rest => secondLastD (x :: y :: rest) d

def lastN (n : Nat) (xs : List ℚ) : List ℚ := xs.drop (xs.length - n)

-- The final entry of a pandas rolling(n).mean() series.
def meanLast (n : Nat) (xs : List ℚ) : ℚ := (lastN n xs).sum / n

def listMin : List ℚ → ℚ
  | [] => 0
  | x :: rest => rest.foldl min x

def listMax : List ℚ → ℚ
  | [] => 0
  | x :: rest => rest.foldl max x

-- The valid (non-NaN) part of a pandas rolling(n) mean/min/max series.
def rollingMean (n : Nat) (xs : List ℚ) : List ℚ :=
  (List.range (xs.length + 1 - n)).map (fun i => ((xs.drop i).take n).sum / n)

def rollingMin (n : Nat) (xs : List ℚ) : List ℚ :=
  (List.range (xs.length + 1 - n)).map (fun i => listMin ((xs.drop i).take n))

def rollingMax (n : Nat) (xs : List ℚ) : List ℚ :=
  (List.range (xs.length + 1 - n)).map (fun i => listMax ((xs.drop i).take n))

-- pandas Series.ewm(..., adjust=False).mean(): y0 = x0,
-- yt = (1 - alpha) * y(t-1) + alpha * xt.
def ewmFrom (a y : ℚ) : List ℚ → List ℚ
  | [] => []
  | x :: xs => ((1 - a) * y + a * x) :: ewmFrom a ((1 - a) * y + a * x) xs

def ewm (a : ℚ) : List ℚ → List ℚ
  | [] => []
  | x :: xs => x :: ewmFrom a x xs

-- pandas Series.diff() without its leading NaN.
def diffs (xs : List ℚ) : List ℚ := List.zipWith (fun b a => b - a) xs.tail xs

def zipWith3 (f : ℚ → ℚ → ℚ → ℚ) : List ℚ → List ℚ → List ℚ → List ℚ
  | a :: as, b :: bs, c :: cs => f a b c :: zipWith3 f as bs cs
  | _, _, _ => []

def closesOf (bars : List Bar) : List ℚ := bars.map Bar.close
def highsOf (bars : List Bar) : List ℚ := bars.map Bar.high
def lowsOf (bars : List Bar) : List ℚ := bars.map Bar.low
def volumesOf (bars : List Bar) : List ℚ := bars.map Bar.volume

-- MACD (span 12 / 26 / 9, adjust=False): alpha = 2 / (span + 1).
def ema12Of (bars : List Bar) : List ℚ := ewm (2 / 13) (closesOf bars)
def ema26Of (bars : List Bar) : List ℚ := ewm (2 / 27) (closesOf bars)

def macdLineOf (bars : List Bar) : List ℚ :=
  List.zipWith (fun a b => a - b) (ema12Of bars) (ema26Of bars)

def signalLineOf (bars : List Bar) : List ℚ := ewm (1 / 5) (macdLineOf bars)

def macdHistOf (bars : List Bar) : List ℚ :=
  List.zipWith (fun a b => a - b) (macdLineOf bars) (signalLineOf bars)

-- indicators.py line 78: "GOLDEN" if curr_macd >= curr_signal else "DEATH".
def macdCrossOf (bars : List Bar) : String :=
  if lastD (signalLineOf bars) 0 ≤ lastD (macdLineOf bars) 0 then "GOLDEN" else "DEATH"

-- indicators.py lines 81-89.
def macdIsNewCrossOf (bars : List Bar) : Bool :=
  if 2 ≤ (macdLineOf bars).length then
    let currM := lastD (macdLineOf bars) 0
    let currS := lastD (signalLineOf bars) 0
    let prevM := secondLastD (macdLineOf bars) 0
    let prevS := secondLastD (signalLineOf bars) 0
    decide ((prevM < prevS ∧ currS ≤ currM) ∨ (prevS < prevM ∧ currM ≤ currS))
  else false

-- indicators.py lines 91-94.
def macdHistSlopeOf (bars : List Bar) : ℚ :=
  if 2 ≤ (macdHistOf bars).length then
    lastD (macdHistOf bars) 0 - secondLastD (macdHistOf bars) 0
  else 0

-- True range without its index-0 entry (pandas concat(...).max(axis=1)
-- skips the NaN produced by close.shift() at index 0, so the index-0 entry
-- is high0 - low0; rolling windows used below never reach index 0 except in
-- the ADX smoothing, which uses trFullOf).
def trTailOf (bars : List Bar) : List ℚ :=
  zipWith3 (fun h l cp => max (h - l) (max |h - cp| |l - cp|))
    (highsOf bars).tail (lowsOf bars).tail (closesOf bars)

def trFullOf (bars : List Bar) : List ℚ :=
  match bars with
  | [] => []
  | b :: _ => (b.high - b.low) :: trTailOf bars

-- ATR(14): last entry of tr.rolling(14).mean() for series of length >= 15.
def atrLastOf (bars : List Bar) : ℚ := meanLast 14 (trTailOf bars)

-- ADX(14) (indicators.py lines 146-167).  np.where on the NaN produced by
-- diff() at index 0 compares False, so +DM/-DM start with a real 0.
def pdmFullOf (bars : List Bar) : List ℚ :=
  0 :: List.zipWith (fun up down => if down < up ∧ 0 < up then up else 0)
    (diffs (highsOf bars)) (diffs (lowsOf bars))

def mdmFullOf (bars : List Bar) : List ℚ :=
  0 :: List.zipWith (fun up down => if up < down ∧ 0 < down then down else 0)
    (diffs (highsOf bars)) (diffs (lowsOf bars))

def pdiOf (bars : List Bar) : List ℚ :=
  List.zipWith (fun dm tr => 100 * (dm / tr))
    (rollingMean 14 (pdmFullOf bars)) (rollingMean 14 (trFullOf bars))

def mdiOf (bars : List Bar) : List ℚ :=
  List.zipWith (fun dm tr => 100 * (dm / tr))
    (rollingMean 14 (mdmFullOf bars)) (rollingMean 14 (trFullOf bars))

def dxOf (bars : List Bar) : List ℚ :=
  List.zipWith (fun p m => 100 * |p - m| / (p + m)) (pdiOf bars) (mdiOf bars)

def adxLastOf (bars : List Bar) : ℚ := meanLast 14 (dxOf bars)

-- KDJ(9,3,3) (indicators.py lines 121-130): the leading NaNs of the
-- rolling(9) min/max only delay the start of the adjust=False ewm, so the
-- recursions run over the valid tail; ewm com=2 gives alpha = 1/3.
def rsvOf (bars : List Bar) : List ℚ :=
  zipWith3 (fun c l9 h9 => (c - l9) / (h9 - l9) * 100)
    ((closesOf bars).drop 8) (rollingMin 9 (lowsOf bars)) (rollingMax 9 (highsOf bars))

def kListOf (bars : List Bar) : List ℚ := ewm (1 / 3) (rsvOf bars)
def dListOf (bars : List Bar) : List ℚ := ewm (1 / 3) (kListOf bars)

def jListOf (bars : List Bar) : List ℚ :=
  List.zipWith (fun k d => 3 * k - 2 * d) (kListOf bars) (dListOf bars)

-- RSI(14) (indicators.py lines 111-117): delta.where(delta > 0, 0) zero-floors
-- the deltas; with the length-15 guard the final rolling window sees real
-- values only.
def rsiLastOf (bars : List Bar) : ℚ :=
  let ds := diffs (closesOf bars)
  let g := meanLast 14 (ds.map (fun x => if 0 < x then x else 0))
  let l := meanLast 14 (ds.map (fun x => if x < 0 then -x else 0))
  100 - 100 / (1 + g / l)

-- Bollinger(20) middle band and pandas rolling std with ddof = 1.
def ma20Of (bars : List Bar) : ℚ := meanLast 20 (closesOf bars)

def var20Of (bars : List Bar) : ℚ :=
  let w := lastN 20 (closesOf bars)
  let m := w.sum / 20
  (w.map (fun x => (x - m) ^ 2)).sum / 19

def bbUpperOpt (sq : ℚ → ℚ) (bars : List Bar) : Option ℚ :=
  if 20 ≤ bars.length then some (ma20Of bars + sq (var20Of bars) * 2) else none

def bbLowerOpt (sq : ℚ → ℚ) (bars : List Bar) : Option ℚ :=
  if 20 ≤ bars.length then some (ma20Of bars - sq (var20Of bars) * 2) else none

def volMa20Of (bars : List Bar) : ℚ := meanLast 20 (volumesOf bars)

-- indicators.py line 108 (returns 0, not 1.0, when the mean volume is not
-- positive).
def volumeRatioOf (bars : List Bar) : ℚ :=
  if 0 < volMa20Of bars then lastD (volumesOf bars) 0 / volMa20Of bars else 0

-- Classic pivot points from the second-to-last bar (indicators.py 171-181).
def pivotOf (bars : List Bar) : ℚ :=
  (secondLastD (highsOf bars) 0 + secondLastD (lowsOf bars) 0 +
    secondLastD (closesOf bars) 0) / 3

def r1Of (bars : List Bar) : ℚ := 2 * pivotOf bars - secondLastD (lowsOf bars) 0
def s1Of (bars : List Bar) : ℚ := 2 * pivotOf bars - secondLastD (highsOf bars) 0

def r2Of (bars : List Bar) : ℚ :=
  pivotOf bars + (secondLastD (highsOf bars) 0 - secondLastD (lowsOf bars) 0)

def s2Of (bars : List Bar) : ℚ :=
  pivotOf bars - (secondLastD (highsOf bars) 0 - secondLastD (lowsOf bars) 0)

def ma50Opt (bars : List Bar) : Option ℚ :=
  if 50 ≤ bars.length then some (meanLast 50 (closesOf bars)) else none

def ma200Opt (bars : List Bar) : Option ℚ :=
  if 120 ≤ bars.length then
    some (meanLast (min bars.length 200) (closesOf bars))
  else none

def atrOpt (bars : List Bar) : Option ℚ :=
  if 15 ≤ bars.length then some (atrLastOf bars) else none

def lastClose (bars : List Bar) : ℚ := lastD (closesOf bars) 0

-- Python round(x, 2): round-half-to-even at two decimals (behavioural model
-- of float rounding on exact values).
def roundHalfEven (q : ℚ) : Int :=
  if q - ⌊q⌋ < 1 / 2 then ⌊q⌋
  else if 1 / 2 < q - ⌊q⌋ then ⌊q⌋ + 1
  else if ⌊q⌋ % 2 = 0 then ⌊q⌋ else ⌊q⌋ + 1

def pyRound2 (q : ℚ) : ℚ := (roundHalfEven (q * 100) : ℚ) / 100

-- Python float truthiness for result.get(...): None and 0.0 are falsy.
def truthy (x : Option ℚ) : Bool :=
  match x with
  | some v => v != 0
  | none => false

-- The risk/reward fallback chain (indicators.py lines 196-238).  r1 and s1
-- are plain rationals because the pivot keys are always present for series
-- of >= 10 bars, which is the only context in which this runs.
def riskReward (r1 s1 : ℚ) (bbU bbL ma50v atrv : Option ℚ) (p : ℚ) : Option ℚ :=
  if truthy (some r1) && truthy (some s1) && decide (s1 < p) && decide (p < r1) then
    if 0 < p - s1 then some (pyRound2 ((r1 - p) / (p - s1))) else none
  else if truthy bbU && truthy bbL then
    if decide (bbL.getD 0 < p) && decide (p < bbU.getD 0) then
      if 0 < p - bbL.getD 0 then
        some (pyRound2 ((bbU.getD 0 - p) / (p - bbL.getD 0)))
      else none
    else none
  else if truthy ma50v && truthy atrv then
    if decide (ma50v.getD 0 - 2 * atrv.getD 0 < p) &&
        decide (p < ma50v.getD 0 + 2 * atrv.getD 0) then
      if 0 < p - (ma50v.getD 0 - 2 * atrv.getD 0) then
        some (pyRound2 ((ma50v.getD 0 + 2 * atrv.getD 0 - p) /
          (p - (ma50v.getD 0 - 2 * atrv.getD 0))))
      else none
    else none
  else none

def rrrOf (sq : ℚ → ℚ) (bars : List Bar) : Option ℚ :=
  riskReward (r1Of bars) (s1Of bars) (bbUpperOpt sq bars) (bbLowerOpt sq bars)
    (ma50Opt bars) (atrOpt bars) (lastClose bars)

-- The result dict of calculate_all: an outer none models an absent key; the
-- risk_reward_ratio key is always written for series of >= 10 bars, possibly
-- with the value None (inner none).
structure IndicatorSet where
  macd_val : Option ℚ
  macd_signal : Option ℚ
  macd_hist : Option ℚ
  macd_cross : Option String
  macd_is_new_cross : Option Bool
  macd_hist_slope : Option ℚ
  ma_20 : Option ℚ
  bb_upper : Option ℚ
  bb_middle : Option ℚ
  bb_lower : Option ℚ
  volume_ma_20 : Option ℚ
  volume_ratio : Option ℚ
  rsi_14 : Option ℚ
  k_line : Option ℚ
  d_line : Option ℚ
  j_line : Option ℚ
  atr_14 : Option ℚ
  adx_14 : Option ℚ
  pivot_point : Option ℚ
  resistance_1 : Option ℚ
  support_1 : Option ℚ
  resistance_2 : Option ℚ
  support_2 : Option ℚ
  ma_50 : Option ℚ
  ma_200 : Option ℚ
  risk_reward_ratio : Option (Option ℚ)
deriving DecidableEq, Repr

def IndicatorSet.empty : IndicatorSet :=
  ⟨none, none, none, none, none, none, none, none, none, none, none, none,
    none, none, none, none, none, none, none, none, none, none, none, none,
    none, none⟩

-- TechnicalIndicators.calculate_all (indicators.py lines 46-240).  The MACD
-- block runs unconditionally once the 10-bar gate is passed; every other
-- indicator sits behind its own length guard as in the source.
def calculate_all (sq : ℚ → ℚ) (bars : List Bar) : IndicatorSet :=
  if bars.length < 10 then IndicatorSet.empty
  else
    { macd_val := some (lastD (macdLineOf bars) 0)
      macd_signal := some (lastD (signalLineOf bars) 0)
      macd_hist := some (lastD (macdHistOf bars) 0)
      macd_cross := some (macdCrossOf bars)
      macd_is_new_cross := some (macdIsNewCrossOf bars)
      macd_hist_slope := some (macdHistSlopeOf bars)
      ma_20 := if 20 ≤ bars.length then some (ma20Of bars) else none
      bb_upper := bbUpperOpt sq bars
      bb_middle := if 20 ≤ bars.length then some (ma20Of bars) else none
      bb_lower := bbLowerOpt sq bars
      volume_ma_20 := if 20 ≤ bars.length then some (volMa20Of bars) else none
      volume_ratio := if 20 ≤ bars.length then some (volumeRatioOf bars) else none
      rsi_14 := if 15 ≤ bars.length then some (rsiLastOf bars) else none
      k_line := if 9 ≤ bars.length then some (lastD (kListOf bars) 0) else none
      d_line := if 9 ≤ bars.length then some (lastD (dListOf bars) 0) else none
      j_line := if 9 ≤ bars.length then some (lastD (jListOf bars) 0) else none
      atr_14 := atrOpt bars
      adx_14 := if 28 ≤ bars.length then some (adxLastOf bars) else none
      pivot_point := if 2 ≤ bars.length then some (pivotOf bars) else none
      resistance_1 := if 2 ≤ bars.length then some (r1Of bars) else none
      support_1 := if 2 ≤ bars.length then some (s1Of bars) else none
      resistance_2 := if 2 ≤ bars.length then some (r2Of bars) else none
      support_2 := if 2 ≤ bars.length then some (s2Of bars) else none
      ma_50 := ma50Opt bars
      ma_200 := ma200Opt bars
      risk_reward_ratio := some (rrrOf sq bars) }

/-! Part 6: helper lemmas and the C4 / C5 theorems -/

theorem isSome_ite {α : Type} {c : Prop} [Decidable c] {x : α} :
    (if c then some x else none).isSome = true ↔ c := by
  split <;> simp_all

theorem truthy_eq_true {x : Option ℚ} :
    truthy x = true ↔ ∃ v, x = some v ∧ v ≠ 0 := by
  cases x <;> simp [truthy]

theorem roundHalfEven_nonneg {q : ℚ} (h : 0 ≤ q) : 0 ≤ roundHalfEven q := by
  unfold roundHalfEven
  have hf : (0 : Int) ≤ ⌊q⌋ := Int.floor_nonneg.mpr h
  split_ifs <;> omega

theorem pyRound2_nonneg {q : ℚ} (h : 0 < q) : 0 ≤ pyRound2 q := by
  unfold pyRound2
  apply div_nonneg _ (by norm_num)
  exact_mod_cast roundHalfEven_nonneg (by positivity)

theorem riskReward_nonneg {r1 s1 p v : ℚ} {bbU bbL maO atrO : Option ℚ}
    (h : riskReward r1 s1 bbU bbL maO atrO p = some v) : 0 ≤ v := by
  unfold riskReward at h
  split_ifs at h with h1 h2 h3 h4 h5 h6 h7 h8 <;>
    simp only [Option.some.injEq, reduceCtorEq] at h
  · -- pivot branch
    simp only [Bool.and_eq_true, decide_eq_true_eq] at h1
    subst h
    exact pyRound2_nonneg (div_pos (by linarith [h1.2]) h2)
  · -- bollinger branch
    simp only [Bool.and_eq_true, decide_eq_true_eq] at h4
    subst h
    exact pyRound2_nonneg (div_pos (by linarith [h4.2]) h5)
  · -- ma50 / atr branch
    simp only [Bool.and_eq_true, decide_eq_true_eq] at h7
    subst h
    exact pyRound2_nonneg (div_pos (by linarith [h7.2]) h8)

theorem riskReward_outside_none {r1 s1 p : ℚ} {bbU bbL maO atrO : Option ℚ}
    (hPiv : ¬ (s1 < p ∧ p < r1))
    (hBB : ∀ u l, bbU = some u → bbL = some l → ¬ (l < p ∧ p < u))
    (hMA : ∀ m a, maO = some m → atrO = some a →
      ¬ (m - 2 * a < p ∧ p < m + 2 * a)) :
    riskReward r1 s1 bbU bbL maO atrO p = none := by
  unfold riskReward
  have hA : ¬ ((truthy (some r1) && truthy (some s1) && decide (s1 < p) &&
      decide (p < r1)) = true) := by
    intro hcon
    simp only [Bool.and_eq_true, decide_eq_true_eq] at hcon
    exact hPiv ⟨hcon.1.2, hcon.2⟩
  rw [if_neg hA]
  by_cases hB : (truthy bbU && truthy bbL) = true
  · rw [if_pos hB]
    simp only [Bool.and_eq_true] at hB
    obtain ⟨u, hu, hu0⟩ := truthy_eq_true.mp hB.1
    obtain ⟨l, hl, hl0⟩ := truthy_eq_true.mp hB.2
    have hnotin : ¬ ((decide (bbL.getD 0 < p) && decide (p < bbU.getD 0)) = true) := by
      intro hcon
      simp only [Bool.and_eq_true, decide_eq_true_eq] at hcon
      refine hBB u l hu hl ⟨?_, ?_⟩
      · simpa [hl] using hcon.1
      · simpa [hu] using hcon.2
    rw [if_neg hnotin]
  · rw [if_neg hB]
    by_cases hC : (truthy maO && truthy atrO) = true
    · rw [if_pos hC]
      simp only [Bool.and_eq_true] at hC
      obtain ⟨m, hm, hm0⟩ := truthy_eq_true.mp hC.1
      obtain ⟨a, ha, ha0⟩ := truthy_eq_true.mp hC.2
      have hnotin : ¬ ((decide (maO.getD 0 - 2 * atrO.getD 0 < p) &&
          decide (p < maO.getD 0 + 2 * atrO.getD 0)) = true) := by
        intro hcon
        simp only [Bool.and_eq_true, decide_eq_true_eq] at hcon
        refine hMA m a hm ha ⟨?_, ?_⟩
        · simpa [hm, ha] using hcon.1
        · simpa [hm, ha] using hcon.2
      rw [if_neg hnotin]
    · rw [if_neg hC]

theorem riskReward_pivot_branch {r1 s1 p : ℚ} {bbU bbL maO atrO : Option ℚ}
    (h0 : r1 ≠ 0) (h1 : s1 ≠ 0) (h2 : s1 < p) (h3 : p < r1) :
    riskReward r1 s1 bbU bbL maO atrO p =
      some (pyRound2 ((r1 - p) / (p - s1))) := by
  unfold riskReward
  have hc : (truthy (some r1) && truthy (some s1) && decide (s1 < p) &&
      decide (p < r1)) = true := by
    simp [truthy, bne_iff_ne, h0, h1, h2, h3]
  rw [if_pos hc, if_pos (by linarith : (0 : ℚ) < p - s1)]

theorem riskReward_bb_branch {r1 s1 p u l : ℚ} {bbU bbL maO atrO : Option ℚ}
    (hPiv : ¬ (s1 < p ∧ p < r1)) (hu : bbU = some u) (hl : bbL = some l)
    (hu0 : u ≠ 0) (hl0 : l ≠ 0) (h2 : l < p) (h3 : p < u) :
    riskReward r1 s1 bbU bbL maO atrO p =
      some (pyRound2 ((u - p) / (p - l))) := by
  unfold riskReward
  have hA : ¬ ((truthy (some r1) && truthy (some s1) && decide (s1 < p) &&
      decide (p < r1)) = true) := by
    intro hcon
    simp only [Bool.and_eq_true, decide_eq_true_eq] at hcon
    exact hPiv ⟨hcon.1.2, hcon.2⟩
  rw [if_neg hA]
  have hB : (truthy bbU && truthy bbL) = true := by
    simp [hu, hl, truthy, bne_iff_ne, hu0, hl0]
  rw [if_pos hB]
  have hin : (decide (bbL.getD 0 < p) && decide (p < bbU.getD 0)) = true := by
    simp [hu, hl, h2, h3]
  rw [if_pos hin, hu, hl]
  simp only [Option.getD_some]
  rw [if_pos (by linarith : (0 : ℚ) < p - l)]

-- A concrete 10-bar series: the second-to-last bar gives pivot 100,
-- R1 = 110, S1 = 90, and the last close 109.99 sits just under R1.
def bars10 : List Bar :=
  [⟨101, 99, 100, 1000⟩, ⟨102, 100, 101, 1000⟩, ⟨103, 101, 102, 1000⟩,
   ⟨104, 102, 103, 1000⟩, ⟨105, 103, 104, 1000⟩, ⟨106, 104, 105, 1000⟩,
   ⟨107, 105, 106, 1000⟩, ⟨108, 106, 107, 1000⟩, ⟨110, 90, 100, 1000⟩,
   ⟨110, 100, 10999 / 100, 1000⟩]

-- A concrete stand-in for the square-root parameter; the series used with it
-- are shorter than 20 bars, so the Bollinger computation it feeds is never
-- produced.
def sqZero : ℚ → ℚ := fun _ => 0

/-- C4 counterexample: for a 10-bar series (shorter than the claimed 26-bar
MACD window) calculate_all nevertheless returns the MACD keys — the MACD
block runs unconditionally once the 10-bar gate is passed. -/
theorem c4_counterexample :
    bars10.length = 10 ∧
    (calculate_all sqZero bars10).macd_val.isSome = true ∧
    (calculate_all sqZero bars10).macd_signal.isSome = true ∧
    (calculate_all sqZero bars10).macd_hist.isSome = true := by
  refine ⟨rfl, rfl, rfl, rfl⟩

/-- C4 (amended): calculate_all returns the empty set for series of fewer
than 10 bars; for longer series each indicator key is present exactly when
its own window is met — Bollinger and volume-ratio at 20 bars, RSI and ATR at
15, ADX at 28, MA50 at 50, MA200 at 120, KDJ at 9 (always met) — except that
the MACD keys are present for every series of at least 10 bars, computed from
whatever data is available rather than gated at 26 bars. -/
theorem c4_indicator_windows (sq : ℚ → ℚ) (bars : List Bar) :
    (bars.length < 10 → calculate_all sq bars = IndicatorSet.empty) ∧
    (10 ≤ bars.length →
      ((calculate_all sq bars).macd_val.isSome = true ∧
        (calculate_all sq bars).macd_signal.isSome = true ∧
        (calculate_all sq bars).macd_hist.isSome = true) ∧
      ((calculate_all sq bars).bb_upper.isSome = true ↔ 20 ≤ bars.length) ∧
      ((calculate_all sq bars).volume_ratio.isSome = true ↔ 20 ≤ bars.length) ∧
      ((calculate_all sq bars).rsi_14.isSome = true ↔ 15 ≤ bars.length) ∧
      (calculate_all sq bars).k_line.isSome = true ∧
      ((calculate_all sq bars).atr_14.isSome = true ↔ 15 ≤ bars.length) ∧
      ((calculate_all sq bars).adx_14.isSome = true ↔ 28 ≤ bars.length) ∧
      ((calculate_all sq bars).ma_50.isSome = true ↔ 50 ≤ bars.length) ∧
      ((calculate_all sq bars).ma_200.isSome = true ↔ 120 ≤ bars.length)) := by
  constructor
  · intro h
    unfold calculate_all
    rw [if_pos h]
  · intro h
    have hn : ¬ (bars.length < 10) := by omega
    unfold calculate_all
    rw [if_neg hn]
    refine ⟨⟨rfl, rfl, rfl⟩, ?_, ?_, ?_, ?_, ?_, ?_, ?_, ?_⟩
    · unfold bbUpperOpt
      exact isSome_ite
    · exact isSome_ite
    · exact isSome_ite
    · rw [if_pos (by omega : 9 ≤ bars.length)]
      rfl
    · unfold atrOpt
      exact isSome_ite
    · exact isSome_ite
    · unfold ma50Opt
      exact isSome_ite
    · unfold ma200Opt
      exact isSome_ite

/-- Witness for C4 (amended): the empty series yields the empty set, and on
the concrete 10-bar series the RSI key is governed by its 15-bar window. -/
theorem c4_indicator_windows_witness :
    calculate_all sqZero [] = IndicatorSet.empty ∧
    ((calculate_all sqZero bars10).rsi_14.isSome = true ↔ 15 ≤ bars10.length) := by
  constructor
  · exact (c4_indicator_windows sqZero []).1 (by decide)
  · exact ((c4_indicator_windows sqZero bars10).2 (by decide)).2.2.2.1

theorem bars10_r1 : r1Of bars10 = 110 := by
  norm_num [r1Of, pivotOf, secondLastD, highsOf, lowsOf, closesOf, bars10]

theorem bars10_s1 : s1Of bars10 = 90 := by
  norm_num [s1Of, pivotOf, secondLastD, highsOf, lowsOf, closesOf, bars10]

theorem bars10_close : lastClose bars10 = 10999 / 100 := by
  norm_num [lastClose, lastD, closesOf, bars10]

theorem bars10_bbU : bbUpperOpt sqZero bars10 = none := by
  norm_num [bbUpperOpt, bars10]

theorem bars10_bbL : bbLowerOpt sqZero bars10 = none := by
  norm_num [bbLowerOpt, bars10]

theorem bars10_ma50 : ma50Opt bars10 = none := by
  norm_num [ma50Opt, bars10]

theorem bars10_atr : atrOpt bars10 = none := by
  norm_num [atrOpt, bars10]

theorem bars10_rrr : rrrOf sqZero bars10 = some 0 := by
  unfold rrrOf
  rw [bars10_r1, bars10_s1, bars10_close, bars10_bbU, bars10_bbL,
    bars10_ma50, bars10_atr]
  rw [riskReward_pivot_branch (by norm_num) (by norm_num) (by norm_num) (by norm_num)]
  have hq : ((110 : ℚ) - 10999 / 100) / (10999 / 100 - 90) * 100 = 100 / 1999 := by
    norm_num
  have hfl : ⌊(100 : ℚ) / 1999⌋ = 0 := by
    rw [Int.floor_eq_zero_iff]
    constructor <;> norm_num
  norm_num [pyRound2, roundHalfEven, hq, hfl]

/-- C5 counterexample: on the concrete 10-bar series the risk/reward key is
present as the number 0 — the unrounded pivot ratio 0.01 / 19.99 rounds to
0.00 — so the value is not strictly greater than 0. -/
theorem c5_counterexample :
    10 ≤ bars10.length ∧
    (calculate_all sqZero bars10).risk_reward_ratio = some (some 0) := by
  refine ⟨by decide, ?_⟩
  unfold calculate_all
  rw [if_neg (by decide)]
  show some (rrrOf sqZero bars10) = some (some 0)
  rw [bars10_rrr]

/-- C5 (amended): for every series of at least 10 bars, the risk/reward value
is nonnegative whenever present as a number (the pre-rounding ratio is
positive but rounding to 2 decimals can yield 0.00); it is None whenever the
current price lies outside all three fallback bands; the pivot band takes
precedence whenever R1 and S1 are nonzero and the price lies strictly between
them, producing the pivot ratio rounded to 2 decimals; and otherwise the
Bollinger band is consulted before the MA50 ± 2·ATR channel. -/
theorem c5_risk_reward (sq : ℚ → ℚ) (bars : List Bar) (h10 : 10 ≤ bars.length) :
    (∀ v, (calculate_all sq bars).risk_reward_ratio = some (some v) → 0 ≤ v) ∧
    (¬ (s1Of bars < lastClose bars ∧ lastClose bars < r1Of bars) →
      (∀ u l, bbUpperOpt sq bars = some u → bbLowerOpt sq bars = some l →
        ¬ (l < lastClose bars ∧ lastClose bars < u)) →
      (∀ m a, ma50Opt bars = some m → atrOpt bars = some a →
        ¬ (m - 2 * a < lastClose bars ∧ lastClose bars < m + 2 * a)) →
      (calculate_all sq bars).risk_reward_ratio = some none) ∧
    (r1Of bars ≠ 0 → s1Of bars ≠ 0 → s1Of bars < lastClose bars →
      lastClose bars < r1Of bars →
      (calculate_all sq bars).risk_reward_ratio =
        some (some (pyRound2
          ((r1Of bars - lastClose bars) / (lastClose bars - s1Of bars))))) ∧
    (∀ u l, ¬ (s1Of bars < lastClose bars ∧ lastClose bars < r1Of bars) →
      bbUpperOpt sq bars = some u → bbLowerOpt sq bars = some l →
      u ≠ 0 → l ≠ 0 → l < lastClose bars → lastClose bars < u →
      (calculate_all sq bars).risk_reward_ratio =
        some (some (pyRound2 ((u - lastClose bars) / (lastClose bars - l))))) := by
  have hfield : (calculate_all sq bars).risk_reward_ratio = some (rrrOf sq bars) := by
    unfold calculate_all
    rw [if_neg (by omega : ¬ (bars.length < 10))]
  refine ⟨?_, ?_, ?_, ?_⟩
  · intro v hv
    rw [hfield] at hv
    simp only [Option.some.injEq] at hv
    exact riskReward_nonneg (by simpa [rrrOf] using hv)
  · intro hPiv hBB hMA
    rw [hfield]
    unfold rrrOf
    rw [riskReward_outside_none hPiv hBB hMA]
  · intro h0 h1 h2 h3
    rw [hfield]
    unfold rrrOf
    rw [riskReward_pivot_branch h0 h1 h2 h3]
  · intro u l hPiv hu hl hu0 hl0 h2 h3
    rw [hfield]
    unfold rrrOf
    rw [riskReward_bb_branch hPiv hu hl hu0 hl0 h2 h3]

/-- Witness for C5 (amended): on the concrete 10-bar series the pivot band
applies (S1 = 90 < 109.99 < 110 = R1, both nonzero), so the result is the
rounded pivot ratio. -/
theorem c5_risk_reward_witness :
    (calculate_all sqZero bars10).risk_reward_ratio =
      some (some (pyRound2
        ((r1Of bars10 - lastClose bars10) / (lastClose bars10 - s1Of bars10)))) := by
  exact (c5_risk_reward sqZero bars10 (by decide)).2.2.1
    (by rw [bars10_r1]; norm_num) (by rw [bars10_s1]; norm_num)
    (by rw [bars10_s1, bars10_close]; norm_num)
    (by rw [bars10_close, bars10_r1]; norm_num)

end StockAdvisor
